import Mathlib

/-!
Verification of the ant-foraging simulation core (`src/` of the antSim
repository) against its natural-language specification.

Modelling conventions for the shallow embedding:
* Rust `f32` values are modelled as exact rationals (`ℚ`); all arithmetic the
  source performs on them (addition, multiplication, division, comparison,
  `floor`, `clamp`, `abs`, `signum`) is reproduced exactly on `ℚ`.
* `Vec2` is modelled as `ℚ × ℚ`.
* Rust `i32` grid coordinates are modelled as `ℤ` (no arithmetic in the
  sources comes near the `i32` range, so wrap-around is irrelevant).
* Bevy `Entity` handles are modelled as `ℕ` identifiers issued by a counter.
* `Vec2::length()` and `Vec2::normalize()` involve a square root, which is not
  rational; where the source compares `length()` against a constant we compare
  the squared length against the squared constant (an exact reformulation),
  and where the source divides by `length()` we pass the length as an explicit
  argument constrained by the hypotheses `len > 0` and `len ^ 2 = normSq v`
  (exactly the defining equations of the positive square root).
-/

namespace AntSim

/-- `MarkerType` from `src/marker.rs`: `Base` markers are laid while
`Searching`, `Food` markers while `Returning`. -/
inductive MarkerType where
  | Base : MarkerType
  | Food : MarkerType
deriving DecidableEq, Repr

/-- `AntState` from `src/ant.rs`. -/
inductive AntState where
  | Searching : AntState
  | Returning : AntState
deriving DecidableEq, Repr

/-! ### Vec2 arithmetic (bevy `Vec2` modelled over `ℚ`) -/

/-- Component-wise vector addition on the `Vec2` model. -/
def vadd (u v : ℚ × ℚ) : ℚ × ℚ := (u.1 + v.1, u.2 + v.2)

/-- Component-wise vector subtraction on the `Vec2` model. -/
def vsub (u v : ℚ × ℚ) : ℚ × ℚ := (u.1 - v.1, u.2 - v.2)

/-- Scalar multiple `v * c` on the `Vec2` model. -/
def vscale (c : ℚ) (v : ℚ × ℚ) : ℚ × ℚ := (c * v.1, c * v.2)

/-- Vector negation, as in `ant.velocity = -ant.velocity`. -/
def vneg (v : ℚ × ℚ) : ℚ × ℚ := (-v.1, -v.2)

/-- Squared Euclidean norm of a `Vec2`; `Vec2::length()` is its square root. -/
def normSq (v : ℚ × ℚ) : ℚ := v.1 ^ 2 + v.2 ^ 2

/-- Squared Euclidean distance; `Vec2::distance` is its square root.  The
source only compares distances with nonnegative constants, so every such
comparison is reproduced exactly by comparing `distSq` with the square of the
constant. -/
def distSq (u v : ℚ × ℚ) : ℚ := normSq (vsub u v)

/-- `Vec2::normalize()` modelled with the length passed explicitly: the
source computes `v / v.length()`; callers constrain `len` by `0 < len` and
`len ^ 2 = normSq v`, the defining equations of `v.length()`. -/
def normalizeWith (v : ℚ × ℚ) (len : ℚ) : ℚ × ℚ := (v.1 / len, v.2 / len)

/-! ### Grid geometry (`src/marker.rs`) -/

/-- `GRID_CELL_SIZE` from `src/marker.rs` (32.0). -/
def GRID_CELL_SIZE : ℚ := 32

/-- `world_to_grid` from `src/marker.rs`: component-wise
`(pos / GRID_CELL_SIZE).floor()` cast to `i32`. -/
def world_to_grid (pos : ℚ × ℚ) : ℤ × ℤ :=
  (⌊pos.1 / GRID_CELL_SIZE⌋, ⌊pos.2 / GRID_CELL_SIZE⌋)

/-- `grid_to_world` from `src/marker.rs`: the centre of the cell,
`cell * GRID_CELL_SIZE + GRID_CELL_SIZE / 2` component-wise. -/
def grid_to_world (cell : ℤ × ℤ) : ℚ × ℚ :=
  ((cell.1 : ℚ) * GRID_CELL_SIZE + GRID_CELL_SIZE / 2,
   (cell.2 : ℚ) * GRID_CELL_SIZE + GRID_CELL_SIZE / 2)

/-! ### Agents, food and collision rules (`src/ant.rs`, `src/food.rs`, `src/base.rs`) -/

/-- `Ant` from `src/ant.rs`.  The sprite colour the collision systems also
update is presentation state outside the agent record. -/
structure Ant where
  state : AntState
  has_food : Bool
  velocity : ℚ × ℚ
  direction_change_timer : ℚ
  marker_timer : ℚ
  state_timer : ℚ
deriving DecidableEq, Repr

/-- A food source: the `FoodSource` entity with its transform and its
`FoodQuantity` component (`src/food.rs`).  `quantity` is a Rust `u32`;
every decrement in the source is guarded by `quantity > 0`, so `ℕ` models it
exactly. -/
structure Food where
  id : ℕ
  pos : ℚ × ℚ
  quantity : ℕ
deriving DecidableEq, Repr

/-- `COLLISION_THRESHOLD` from `check_food_collision` (`src/food.rs:20`). -/
def FOOD_COLLISION_THRESHOLD : ℚ := 10

/-- `COLLISION_THRESHOLD` from `check_base_collision` (`src/base.rs:46`). -/
def BASE_COLLISION_THRESHOLD : ℚ := 10

/-- The inner food loop of `check_food_collision` for one ant at `antPos`
(`src/food.rs:24-51`): scan the food sources in order; at the first one
strictly within the threshold (`distance < 10`, reproduced exactly as
`distSq < 10 ^ 2`) with positive quantity, perform the pickup mutations on
the ant, decrement the quantity, despawn the source if the quantity reached
0, and `break`.  Returns the updated ant and food list. -/
def food_loop (a : Ant) (antPos : ℚ × ℚ) : List Food → Ant × List Food
  | [] => (a, [])
  | f :: rest =>
    if distSq antPos f.pos < FOOD_COLLISION_THRESHOLD ^ 2 ∧ 0 < f.quantity then
      ({ a with has_food := true, state := AntState.Returning,
                state_timer := 0, marker_timer := 0,
                velocity := vneg a.velocity },
       (if f.quantity - 1 = 0 then []
        else [{ f with quantity := f.quantity - 1 }]) ++ rest)
    else
      ((food_loop a antPos rest).1, f :: (food_loop a antPos rest).2)

/-- `check_food_collision` restricted to one ant (`src/food.rs:22-53`): the
food loop only runs for a `Searching` ant that is not carrying food. -/
def check_food_collision_ant (a : Ant) (antPos : ℚ × ℚ) (foods : List Food) :
    Ant × List Food :=
  if a.state = AntState.Searching ∧ a.has_food = false then
    food_loop a antPos foods
  else (a, foods)

/-- `check_food_collision` over the whole ant query, ants processed in order
with the shared food state threaded through. -/
def check_food_collision :
    List (Ant × (ℚ × ℚ)) → List Food → List Ant × List Food
  | [], foods => ([], foods)
  | ap :: rest, foods =>
    let r := check_food_collision_ant ap.1 ap.2 foods
    let rr := check_food_collision rest r.2
    (r.1 :: rr.1, rr.2)

/-- `check_base_collision` (`src/base.rs:42-70`): for every ant paired with
its position, a `Returning` ant carrying food strictly within the threshold
of the base gets the drop-off mutations; every other ant is left as is.
Only the `Ant` component is mutable in the query, so positions are inputs. -/
def check_base_collision (basePos : ℚ × ℚ) (ants : List (Ant × (ℚ × ℚ))) :
    List Ant :=
  ants.map (fun ap =>
    if ap.1.state = AntState.Returning ∧ ap.1.has_food = true ∧
        distSq ap.2 basePos < BASE_COLLISION_THRESHOLD ^ 2 then
      { ap.1 with has_food := false, state := AntState.Searching,
                  state_timer := 0, marker_timer := 0,
                  velocity := vneg ap.1.velocity }
    else ap.1)

/-- The per-axis wrap of `keep_ants_in_bounds` (`src/ant.rs:209-223`):
crossing an edge teleports the coordinate to the opposite edge; the other
coordinate of the pair is handled by its own independent conditional. -/
def wrap_position (w h : ℚ) (p : ℚ × ℚ) : ℚ × ℚ :=
  ((if p.1 < 0 then w else if p.1 > w then 0 else p.1),
   (if p.2 < 0 then h else if p.2 > h then 0 else p.2))

/-- `keep_ants_in_bounds` (`src/ant.rs:200-224`): the map extent is
`config.map_size` (in cells) times `GRID_CELL_SIZE` pixels; the system's
query can only touch the transform, so the `Ant` record rides along
unchanged. -/
def keep_ants_in_bounds (mapW mapH : ℕ) (ants : List (Ant × (ℚ × ℚ))) :
    List (Ant × (ℚ × ℚ)) :=
  ants.map (fun ap =>
    (ap.1, wrap_position ((mapW : ℚ) * GRID_CELL_SIZE)
      ((mapH : ℚ) * GRID_CELL_SIZE) ap.2))

/-! ### Markers, the grid resource and emission/expiry (`src/marker.rs`) -/

/-- `INITIAL_INTENSITY` from `src/marker.rs:23`. -/
def INITIAL_INTENSITY : ℚ := 100

/-- A live marker entity: the Bevy entity id together with the `Marker`
component (`src/marker.rs:5-10`) and its `MarkerLifetime` timer, the latter
modelled by the elapsed time and the configured duration. -/
structure MarkerRec where
  id : ℕ
  intensity : ℚ
  marker_type : MarkerType
  grid_cell : ℤ × ℤ
  elapsed : ℚ
  duration : ℚ
deriving DecidableEq, Repr

/-- `GridCellData` (`src/marker.rs:28-32`): one optional `Base` reference
and one optional `Food` reference per cell. -/
structure GridCellData where
  base_marker : Option ℕ
  food_marker : Option ℕ
deriving DecidableEq, Repr

/-- `GridMap` (`src/marker.rs:35-38`) modelled as a total function from
cell coordinates to cell data: a `HashMap` key that is absent behaves
exactly like one mapped to the default (both slots `None`) `GridCellData`,
and no code path distinguishes the two. -/
def GridMap := (ℤ × ℤ) → GridCellData

/-- The slot of type `t` in the cell record the grid holds for `cell`
(the read performed at `src/marker.rs:185-191` and `src/ant.rs:154-159`). -/
def slot (g : GridMap) (cell : ℤ × ℤ) (t : MarkerType) : Option ℕ :=
  match t with
  | MarkerType.Base => (g cell).base_marker
  | MarkerType.Food => (g cell).food_marker

/-- `GridMap::set_marker` (`src/marker.rs:49-55`): unconditionally
overwrite the slot of `t` at `cell`. -/
def set_marker (g : GridMap) (cell : ℤ × ℤ) (t : MarkerType) (e : ℕ) :
    GridMap :=
  fun c =>
    if c = cell then
      match t with
      | MarkerType.Base => { g cell with base_marker := some e }
      | MarkerType.Food => { g cell with food_marker := some e }
    else g c

/-- `GridMap::remove_marker` (`src/marker.rs:57-64`): clear the slot of `t`
at `cell`; a no-op on every other slot. -/
def remove_marker (g : GridMap) (cell : ℤ × ℤ) (t : MarkerType) : GridMap :=
  fun c =>
    if c = cell then
      match t with
      | MarkerType.Base => { g cell with base_marker := none }
      | MarkerType.Food => { g cell with food_marker := none }
    else g c

/-- The marker intensity computed once at spawn (`src/marker.rs:197`):
`INITIAL_INTENSITY - state_timer / marker_lifetime`, with no clamp. -/
def spawn_intensity (state_timer marker_lifetime : ℚ) : ℚ :=
  INITIAL_INTENSITY - state_timer / marker_lifetime

/-- One `update_marker_visuals` step for a single marker
(`src/marker.rs:243-267`): tick the lifetime timer by `dt` (Bevy clamps a
`Once` timer's elapsed time at its duration, and `just_finished` holds
exactly on the tick that reaches the duration); a marker whose timer just
finished is removed (`none`); otherwise the marker survives with every
`Marker` field untouched, and the derived render opacity — also used as the
size scale — is `(intensity / INITIAL_INTENSITY).clamp(0.0, 1.0)`. -/
def update_marker_visual (m : MarkerRec) (dt : ℚ) : Option (MarkerRec × ℚ) :=
  if m.elapsed < m.duration ∧ m.duration ≤ m.elapsed + dt then none
  else
    some ({ m with elapsed := min (m.elapsed + dt) m.duration },
      min (max (m.intensity / INITIAL_INTENSITY) 0) 1)

/-- The marker-relevant world state: the grid resource, the live marker
entities, and the Bevy entity allocator modelled as a fresh-id counter. -/
structure World where
  grid : GridMap
  markers : List MarkerRec
  next_id : ℕ

/-- The emission body of `spawn_markers` (`src/marker.rs:174-233`) for one
ant that is due to emit: the cell is the ant's current grid cell, the type
follows the state (`Returning → Food`, otherwise `Base`); if that cell
already holds a marker of that type the old entity is despawned; a fresh
entity carrying the spawn intensity and a full lifetime timer is spawned
and registered in the grid. -/
def emit_marker (w : World) (ant_pos : ℚ × ℚ) (state : AntState)
    (state_timer marker_lifetime : ℚ) : World :=
  let cell := world_to_grid ant_pos
  let t := if state = AntState.Returning then MarkerType.Food
           else MarkerType.Base
  let survivors :=
    match slot w.grid cell t with
    | some old => w.markers.filter (fun m => decide (m.id ≠ old))
    | none => w.markers
  { grid := set_marker w.grid cell t w.next_id,
    markers := ⟨w.next_id, spawn_intensity state_timer marker_lifetime, t,
                cell, 0, marker_lifetime⟩ :: survivors,
    next_id := w.next_id + 1 }

/-- The expiry branch of `update_marker_visuals` (`src/marker.rs:248-253`)
for the marker entity `id`: when alive, it is removed from the grid — keyed
by its own recorded `grid_cell` and `marker_type` — and despawned. -/
def expire_marker (w : World) (id : ℕ) : World :=
  match w.markers.find? (fun m => decide (m.id = id)) with
  | some m =>
    { grid := remove_marker w.grid m.grid_cell m.marker_type,
      markers := w.markers.filter (fun x => decide (x.id ≠ id)),
      next_id := w.next_id }
  | none => w

/-- The operations that mutate the grid/marker state: an emission (with its
built-in eviction) by an ant at a position in a state with its timers, or
the expiry of a marker entity. -/
inductive MarkerOp where
  | emit : (ℚ × ℚ) → AntState → ℚ → ℚ → MarkerOp
  | expire : ℕ → MarkerOp

/-- Apply one operation to the world. -/
def apply_op (w : World) : MarkerOp → World
  | MarkerOp.emit p s st ml => emit_marker w p s st ml
  | MarkerOp.expire id => expire_marker w id

/-- Run a sequence of operations. -/
def run_ops (w : World) (ops : List MarkerOp) : World := ops.foldl apply_op w

/-- The initial world: empty grid (`GridMap::default()`), no markers, no
entities allocated. -/
def init_world : World := ⟨fun _ => ⟨none, none⟩, [], 0⟩

/-- The live markers of type `t` recorded in cell `cell`. -/
def live_markers (w : World) (cell : ℤ × ℤ) (t : MarkerType) :
    List MarkerRec :=
  w.markers.filter (fun m => decide (m.grid_cell = cell ∧ m.marker_type = t))

/-- The grid/marker consistency invariant: every live marker is exactly the
entity its own cell slot references, every live id was issued by the
allocator, and live ids are pairwise distinct. -/
def WorldInv (w : World) : Prop :=
  (∀ m ∈ w.markers, slot w.grid m.grid_cell m.marker_type = some m.id) ∧
  (∀ m ∈ w.markers, m.id < w.next_id) ∧
  w.markers.Pairwise (fun m m2 => m.id ≠ m2.id)

/-! ### Configuration (`src/config.rs`, `src/main.rs`) -/

/-- `Config` from `src/config.rs`. -/
structure Config where
  map_size : ℕ × ℕ
  base_location : ℕ × ℕ
  food_locations : List (ℕ × ℕ)
  spawn_rate : ℚ
  marker_spawn_interval : ℚ
  marker_lifetime : ℚ
  initial_ant_count : ℕ
  food_quantity : ℕ
deriving DecidableEq, Repr

/-- `Config::load` (`src/config.rs:17-21`) modulo the file system: the
argument stands for the outcome of reading and deserializing `config.json`
(`none` = read or parse error).  The function returns whatever was parsed:
no field is validated, and `main` (`src/main.rs:21`) starts the app with
the parsed configuration as is. -/
def config_load (parsed : Option Config) : Option Config := parsed

/-! ### Steering blends (`src/ant.rs`) -/

/-- `MAX_INTENSITY` from `src/ant.rs:136`. -/
def MAX_INTENSITY : ℚ := 100

/-- `INFLUENCE_STRENGTH` from `src/ant.rs:137`. -/
def INFLUENCE_STRENGTH : ℚ := 3 / 10

/-- The `Returning`-state blend toward the base before renormalization
(`src/ant.rs:109`): `ant.velocity * 0.7 + base_direction * 0.3`. -/
def returning_blend (velocity base_direction : ℚ × ℚ) : ℚ × ℚ :=
  vadd (vscale (7 / 10) velocity) (vscale (3 / 10) base_direction)

/-- The marker influence factor (`src/ant.rs:190`):
`(intensity / MAX_INTENSITY) * INFLUENCE_STRENGTH`. -/
def marker_influence (intensity : ℚ) : ℚ :=
  intensity / MAX_INTENSITY * INFLUENCE_STRENGTH

/-- The marker-following blend before renormalization
(`src/ant.rs:193-194`):
`ant.velocity * (1 - influence) + direction_to_marker * influence`. -/
def marker_blend (velocity direction_to_marker : ℚ × ℚ) (intensity : ℚ) :
    ℚ × ℚ :=
  vadd (vscale (1 - marker_influence intensity) velocity)
    (vscale (marker_influence intensity) direction_to_marker)

end AntSim

namespace AntSim

/-- Rust `f32::signum` restricted to the uses in `get_front_cells`: it yields
`1.0` for positive arguments and `-1.0` for negative ones.  (`f32::signum`
also maps `+0.0` to `1.0` and `-0.0` to `-1.0`; `ℚ` has no signed zero, and
every call site in the source passes a component that is nonzero on that
branch, so mapping `0` to `1` matches the reachable behaviour.) -/
def sgn (x : ℚ) : ℤ := if x < 0 then -1 else 1

/-- The front-cell offset computed inside `get_front_cells`
(`src/marker.rs:103-123`) from the direction vector: for each axis,
a three-way dominance test on the component magnitudes, with the
equal-magnitude (diagonal) case using both components. -/
def frontOffset (d : ℚ × ℚ) : ℤ × ℤ :=
  ((if |d.1| > |d.2| then sgn d.1 else if |d.1| < |d.2| then 0 else sgn d.1),
   (if |d.2| > |d.1| then sgn d.2 else if |d.2| < |d.1| then 0 else sgn d.2))

/-- Integer cell-coordinate addition. -/
def cadd (a b : ℤ × ℤ) : ℤ × ℤ := (a.1 + b.1, a.2 + b.2)

/-- The 3×3 block of cells centred on `c`, in the order the source's nested
`for dx in -1..=1 { for dy in -1..=1 }` loop pushes them. -/
def block3x3 (c : ℤ × ℤ) : List (ℤ × ℤ) :=
  [(c.1 - 1, c.2 - 1), (c.1 - 1, c.2), (c.1 - 1, c.2 + 1),
   (c.1, c.2 - 1), (c.1, c.2), (c.1, c.2 + 1),
   (c.1 + 1, c.2 - 1), (c.1 + 1, c.2), (c.1 + 1, c.2 + 1)]

/-- `get_front_cells` from `src/marker.rs`: the 3×3 block centred one cell
ahead of the agent along the dominant axis of `velocity`; a velocity whose
length is not above `0.01` is replaced by the default direction `(1, 0)`.

The source tests `velocity.length() > 0.01` — reproduced exactly as
`normSq velocity > (1/100)^2` — and then normalizes `velocity` before taking
the offset; `frontOffset` only inspects the signs and the magnitude order of
the two components, which dividing by the positive length leaves unchanged
(lemma `frontOffset_scale` below), so the model applies `frontOffset` to the
unnormalized vector. -/
def get_front_cells (pos velocity : ℚ × ℚ) : List (ℤ × ℤ) :=
  let current_cell := world_to_grid pos
  let direction := if normSq velocity > (1 / 100) ^ 2 then velocity else (1, 0)
  block3x3 (cadd current_cell (frontOffset direction))

/-- The front-centre offset exactly as claim C7 words it: offset
`(sign hx, 0)` when `|hx| > |hy|`, `(0, sign hy)` when `|hy| > |hx|`, and
`(sign hx, sign hy)` when the magnitudes are equal.  Stated from the claim's
words, to be compared with the source-derived `get_front_cells`. -/
def claimedFrontOffset (h : ℚ × ℚ) : ℤ × ℤ :=
  if |h.1| > |h.2| then (sgn h.1, 0)
  else if |h.2| > |h.1| then (0, sgn h.2)
  else (sgn h.1, sgn h.2)

lemma floor_center_div (c : ℤ) :
    ⌊((c : ℚ) * GRID_CELL_SIZE + GRID_CELL_SIZE / 2) / GRID_CELL_SIZE⌋ = c := by
  have h32 : (GRID_CELL_SIZE : ℚ) = 32 := rfl
  rw [h32]
  have : ((c : ℚ) * 32 + 32 / 2) / 32 = (c : ℚ) + 1 / 2 := by ring
  rw [this]
  rw [Int.floor_eq_iff]
  constructor
  · nlinarith
  · nlinarith

/-- C4: round-tripping any integer cell coordinate through `grid_to_world`
followed by `world_to_grid` returns the same cell: the floor of
`(c * 32 + 16) / 32 = c + 1/2` is `c`, component-wise. -/
theorem world_to_grid_grid_to_world (c : ℤ × ℤ) :
    world_to_grid (grid_to_world c) = c := by
  unfold world_to_grid grid_to_world
  rw [floor_center_div, floor_center_div]

/-- Dividing a vector by its positive length changes neither the signs nor
the magnitude order of its components, so `frontOffset` of the normalized
direction equals `frontOffset` of the raw velocity.  This justifies dropping
the `normalize()` call in the model of `get_front_cells`. -/
lemma frontOffset_scale (d : ℚ × ℚ) (c : ℚ) (hc : 0 < c) :
    frontOffset (vscale c d) = frontOffset d := by
  have hmul : ∀ x y : ℚ, (c * x < c * y ↔ x < y) := by
    intro x y
    constructor <;> intro h <;> nlinarith
  have hneg : ∀ x : ℚ, (c * x < 0 ↔ x < 0) := by
    intro x
    constructor <;> intro h <;> nlinarith
  unfold frontOffset vscale sgn
  simp only [abs_mul, abs_of_pos hc, gt_iff_lt, hmul, hneg]

lemma frontOffset_eq_claimed (h : ℚ × ℚ) :
    frontOffset h = claimedFrontOffset h := by
  rcases lt_trichotomy |h.1| |h.2| with hc | hc | hc
  · simp [frontOffset, claimedFrontOffset, hc, hc.not_lt]
  · simp [frontOffset, claimedFrontOffset, hc, lt_irrefl]
  · simp [frontOffset, claimedFrontOffset, hc, hc.not_lt]

/-- C7 (counterexample): for the tiny heading `(0, 1/200)` — length
`0.005 ≤ 0.01` — `get_front_cells` falls back to the default direction
`(1, 0)` and returns the block centred one cell in +x, not the block the
claim's dominant-axis formula predicts (one cell in +y), so the claim is
false for arbitrary heading vectors. -/
theorem get_front_cells_tiny_heading_counterexample :
    get_front_cells ((0 : ℚ), (0 : ℚ)) ((0 : ℚ), 1 / 200) ≠
      block3x3 (cadd (world_to_grid ((0 : ℚ), (0 : ℚ)))
        (claimedFrontOffset ((0 : ℚ), 1 / 200))) := by
  have hL : get_front_cells ((0 : ℚ), (0 : ℚ)) ((0 : ℚ), 1 / 200) =
      block3x3 (1, 0) := by
    norm_num [get_front_cells, world_to_grid, frontOffset, sgn, normSq, cadd,
      GRID_CELL_SIZE]
  have hR : cadd (world_to_grid ((0 : ℚ), (0 : ℚ)))
      (claimedFrontOffset ((0 : ℚ), 1 / 200)) = (0, 1) := by
    norm_num [world_to_grid, claimedFrontOffset, sgn, cadd, GRID_CELL_SIZE]
  rw [hL, hR]
  decide

/-- C7 (amended: restricted to headings of length above the `0.01`
threshold): for every position and every heading with `length > 0.01`,
`get_front_cells` returns exactly the 3×3 block of cells centred on the cell
one step from the agent's cell along the dominant axis of the heading —
offset `(sign hx, 0)` when `|hx| > |hy|`, `(0, sign hy)` when
`|hy| > |hx|`, and `(sign hx, sign hy)` when the magnitudes are equal. -/
theorem get_front_cells_dominant_axis (pos h : ℚ × ℚ)
    (hlen : (1 / 100 : ℚ) ^ 2 < normSq h) :
    get_front_cells pos h =
      block3x3 (cadd (world_to_grid pos) (claimedFrontOffset h)) := by
  simp only [get_front_cells]
  rw [if_pos hlen, frontOffset_eq_claimed]

/-- Witness for C7's amended theorem at the concrete input
`pos = (0,0)`, `h = (1,0)`. -/
theorem get_front_cells_dominant_axis_witness :
    (1 / 100 : ℚ) ^ 2 < normSq ((1 : ℚ), (0 : ℚ)) ∧
    get_front_cells ((0 : ℚ), (0 : ℚ)) ((1 : ℚ), (0 : ℚ)) =
      block3x3 (cadd (world_to_grid ((0 : ℚ), (0 : ℚ)))
        (claimedFrontOffset ((1 : ℚ), (0 : ℚ)))) :=
  ⟨by norm_num [normSq], get_front_cells_dominant_axis _ _ (by norm_num [normSq])⟩

/-- C10: for every position, a velocity of length at most `0.01` (the zero
vector included) makes `get_front_cells` use the default direction `(1, 0)`:
it returns the 3×3 block centred on the cell immediately in +x from the
agent's current cell, never failing or returning an empty list. -/
theorem get_front_cells_default (pos v : ℚ × ℚ)
    (h : normSq v ≤ (1 / 100 : ℚ) ^ 2) :
    get_front_cells pos v =
      block3x3 (cadd (world_to_grid pos) (1, 0)) := by
  simp only [get_front_cells]
  rw [if_neg (not_lt.mpr h)]
  have hoff : frontOffset ((1 : ℚ), (0 : ℚ)) = (1, 0) := by
    norm_num [frontOffset, sgn]
  rw [hoff]

/-- Witness for C10 at the zero velocity and the origin. -/
theorem get_front_cells_default_witness :
    normSq ((0 : ℚ), (0 : ℚ)) ≤ (1 / 100 : ℚ) ^ 2 ∧
    get_front_cells ((0 : ℚ), (0 : ℚ)) ((0 : ℚ), (0 : ℚ)) =
      block3x3 (cadd (world_to_grid ((0 : ℚ), (0 : ℚ))) (1, 0)) :=
  ⟨by norm_num [normSq], get_front_cells_default _ _ (by norm_num [normSq])⟩

lemma food_loop_first_match (a : Ant) (antPos : ℚ × ℚ)
    (pre post : List Food) (f : Food)
    (hpre : ∀ g ∈ pre,
      ¬(distSq antPos g.pos < FOOD_COLLISION_THRESHOLD ^ 2 ∧ 0 < g.quantity))
    (hd : distSq antPos f.pos < FOOD_COLLISION_THRESHOLD ^ 2)
    (hq : 0 < f.quantity) :
    food_loop a antPos (pre ++ f :: post) =
      ({ a with has_food := true, state := AntState.Returning,
                state_timer := 0, marker_timer := 0,
                velocity := vneg a.velocity },
       pre ++ (if f.quantity = 1 then []
               else [{ f with quantity := f.quantity - 1 }]) ++ post) := by
  induction pre with
  | nil =>
    rw [List.nil_append, food_loop, if_pos (And.intro hd hq)]
    have hiff : (f.quantity - 1 = 0) ↔ (f.quantity = 1) := by omega
    simp only [hiff, List.nil_append]
  | cons g pre ih =>
    have hg := hpre g (List.mem_cons_self g pre)
    have hrest : ∀ x ∈ pre,
        ¬(distSq antPos x.pos < FOOD_COLLISION_THRESHOLD ^ 2 ∧ 0 < x.quantity) :=
      fun x hx => hpre x (List.mem_cons_of_mem g hx)
    rw [List.cons_append, food_loop, if_neg hg, ih hrest]
    simp

/-- C1: a `Searching` ant not carrying food whose position is strictly
within `COLLISION_THRESHOLD` (10) of the first matching food source (every
earlier source in query order misses or is empty) picks it up: `has_food`
becomes true, the state becomes `Returning`, `state_timer` and
`marker_timer` reset to 0, the velocity is reversed,
`direction_change_timer` is untouched, the matched source's quantity drops
by exactly 1 and the source is removed exactly when that reaches 0, all
other sources are untouched, and no further source is matched (the loop
breaks). -/
theorem food_pickup_first_match (a : Ant) (antPos : ℚ × ℚ)
    (pre post : List Food) (f : Food)
    (hstate : a.state = AntState.Searching) (hfood : a.has_food = false)
    (hpre : ∀ g ∈ pre,
      ¬(distSq antPos g.pos < FOOD_COLLISION_THRESHOLD ^ 2 ∧ 0 < g.quantity))
    (hd : distSq antPos f.pos < FOOD_COLLISION_THRESHOLD ^ 2)
    (hq : 0 < f.quantity) :
    check_food_collision_ant a antPos (pre ++ f :: post) =
      (⟨AntState.Returning, true, vneg a.velocity,
        a.direction_change_timer, 0, 0⟩,
       pre ++ (if f.quantity = 1 then []
               else [{ f with quantity := f.quantity - 1 }]) ++ post) := by
  unfold check_food_collision_ant
  rw [if_pos (And.intro hstate hfood),
    food_loop_first_match a antPos pre post f hpre hd hq]

/-- Witness for C1: a concrete searching ant at the origin, one distant
full source before a source at distance 5 holding a single unit, which the
pickup removes. -/
theorem food_pickup_first_match_witness :
    check_food_collision_ant
        ⟨AntState.Searching, false, ((1 : ℚ), (0 : ℚ)), 7, 2, 3⟩
        ((0 : ℚ), (0 : ℚ))
        ([⟨0, ((1000 : ℚ), (0 : ℚ)), 5⟩] ++ ⟨1, ((3 : ℚ), (4 : ℚ)), 1⟩ :: []) =
      (⟨AntState.Returning, true, vneg ((1 : ℚ), (0 : ℚ)), 7, 0, 0⟩,
       [⟨0, ((1000 : ℚ), (0 : ℚ)), 5⟩] ++
         (if (1 : ℕ) = 1 then []
          else [⟨1, ((3 : ℚ), (4 : ℚ)), 1 - 1⟩]) ++ []) := by
  have h := food_pickup_first_match
    ⟨AntState.Searching, false, ((1 : ℚ), (0 : ℚ)), 7, 2, 3⟩
    ((0 : ℚ), (0 : ℚ))
    [⟨0, ((1000 : ℚ), (0 : ℚ)), 5⟩] []
    ⟨1, ((3 : ℚ), (4 : ℚ)), 1⟩
    rfl rfl
    (by
      intro g hg
      simp only [List.mem_singleton] at hg
      subst hg
      norm_num [distSq, vsub, normSq, FOOD_COLLISION_THRESHOLD])
    (by norm_num [distSq, vsub, normSq, FOOD_COLLISION_THRESHOLD])
    (by norm_num)
  exact h

/-- C2: the base drop-off rule maps each ant independently; a `Returning`
ant carrying food strictly within `COLLISION_THRESHOLD` (10) of the base is
replaced by the ant with `has_food = false`, state `Searching`, both timers
reset to 0, velocity reversed and `direction_change_timer` untouched; every
other ant — and every field of a non-matching ant — is unchanged. -/
theorem base_dropoff (basePos : ℚ × ℚ) (ants : List (Ant × (ℚ × ℚ))) :
    (check_base_collision basePos ants).length = ants.length ∧
    ∀ i : ℕ, ∀ hi : i < ants.length,
      (check_base_collision basePos ants)[i]? =
        some (if (ants[i]).1.state = AntState.Returning ∧
                  (ants[i]).1.has_food = true ∧
                  distSq (ants[i]).2 basePos < BASE_COLLISION_THRESHOLD ^ 2
              then ⟨AntState.Searching, false, vneg (ants[i]).1.velocity,
                    (ants[i]).1.direction_change_timer, 0, 0⟩
              else (ants[i]).1) := by
  constructor
  · simp [check_base_collision]
  · intro i hi
    simp only [check_base_collision, List.getElem?_map,
      List.getElem?_eq_getElem hi, Option.map_some]
    rfl

/-- Witness for C2: one concrete returning ant at distance 5 from the base,
dropping off its food. -/
theorem base_dropoff_witness :
    (check_base_collision ((0 : ℚ), (0 : ℚ))
        [(⟨AntState.Returning, true, ((1 : ℚ), (0 : ℚ)), 7, 2, 3⟩,
          ((3 : ℚ), (4 : ℚ)))])[0]? =
      some (if (AntState.Returning = AntState.Returning ∧ true = true ∧
                distSq ((3 : ℚ), (4 : ℚ)) ((0 : ℚ), (0 : ℚ)) <
                  BASE_COLLISION_THRESHOLD ^ 2)
            then ⟨AntState.Searching, false, vneg ((1 : ℚ), (0 : ℚ)), 7, 0, 0⟩
            else ⟨AntState.Returning, true, ((1 : ℚ), (0 : ℚ)), 7, 2, 3⟩) :=
  (base_dropoff ((0 : ℚ), (0 : ℚ))
    [(⟨AntState.Returning, true, ((1 : ℚ), (0 : ℚ)), 7, 2, 3⟩,
      ((3 : ℚ), (4 : ℚ)))]).2 0 (by norm_num)

/-- C9: boundary handling wraps toroidally, axis by axis: a coordinate that
left through one edge reappears at the opposite edge, an in-range coordinate
is left exactly in place (no clamping), the resulting coordinates always lie
in `[0, extent]`, and the `Ant` record — its heading included — is never
touched (no reflection/bouncing). -/
theorem keep_ants_in_bounds_wraps (mapW mapH : ℕ)
    (ants : List (Ant × (ℚ × ℚ))) (i : ℕ) (hi : i < ants.length) :
    (keep_ants_in_bounds mapW mapH ants)[i]? =
      some ((ants[i]).1,
        wrap_position ((mapW : ℚ) * GRID_CELL_SIZE)
          ((mapH : ℚ) * GRID_CELL_SIZE) (ants[i]).2) ∧
    ∀ p : ℚ × ℚ,
      (p.1 < 0 →
        (wrap_position ((mapW : ℚ) * GRID_CELL_SIZE)
          ((mapH : ℚ) * GRID_CELL_SIZE) p).1 = (mapW : ℚ) * GRID_CELL_SIZE) ∧
      (p.1 > (mapW : ℚ) * GRID_CELL_SIZE →
        (wrap_position ((mapW : ℚ) * GRID_CELL_SIZE)
          ((mapH : ℚ) * GRID_CELL_SIZE) p).1 = 0) ∧
      (0 ≤ p.1 → p.1 ≤ (mapW : ℚ) * GRID_CELL_SIZE →
        (wrap_position ((mapW : ℚ) * GRID_CELL_SIZE)
          ((mapH : ℚ) * GRID_CELL_SIZE) p).1 = p.1) ∧
      (p.2 < 0 →
        (wrap_position ((mapW : ℚ) * GRID_CELL_SIZE)
          ((mapH : ℚ) * GRID_CELL_SIZE) p).2 = (mapH : ℚ) * GRID_CELL_SIZE) ∧
      (p.2 > (mapH : ℚ) * GRID_CELL_SIZE →
        (wrap_position ((mapW : ℚ) * GRID_CELL_SIZE)
          ((mapH : ℚ) * GRID_CELL_SIZE) p).2 = 0) ∧
      (0 ≤ p.2 → p.2 ≤ (mapH : ℚ) * GRID_CELL_SIZE →
        (wrap_position ((mapW : ℚ) * GRID_CELL_SIZE)
          ((mapH : ℚ) * GRID_CELL_SIZE) p).2 = p.2) ∧
      (0 ≤ (wrap_position ((mapW : ℚ) * GRID_CELL_SIZE)
          ((mapH : ℚ) * GRID_CELL_SIZE) p).1 ∧
        (wrap_position ((mapW : ℚ) * GRID_CELL_SIZE)
          ((mapH : ℚ) * GRID_CELL_SIZE) p).1 ≤ (mapW : ℚ) * GRID_CELL_SIZE) ∧
      (0 ≤ (wrap_position ((mapW : ℚ) * GRID_CELL_SIZE)
          ((mapH : ℚ) * GRID_CELL_SIZE) p).2 ∧
        (wrap_position ((mapW : ℚ) * GRID_CELL_SIZE)
          ((mapH : ℚ) * GRID_CELL_SIZE) p).2 ≤ (mapH : ℚ) * GRID_CELL_SIZE) := by
  have hW : (0 : ℚ) ≤ (mapW : ℚ) * GRID_CELL_SIZE := by
    unfold GRID_CELL_SIZE
    positivity
  have hH : (0 : ℚ) ≤ (mapH : ℚ) * GRID_CELL_SIZE := by
    unfold GRID_CELL_SIZE
    positivity
  constructor
  · simp only [keep_ants_in_bounds, List.getElem?_map,
      List.getElem?_eq_getElem hi]
    rfl
  · intro p
    unfold wrap_position
    refine ⟨fun h1 => by simp [h1], fun h1 => ?_, fun h1 h2 => ?_,
      fun h1 => by simp [h1], fun h1 => ?_, fun h1 h2 => ?_, ?_, ?_⟩
    · have : ¬p.1 < 0 := by linarith
      simp [this, h1]
    · simp [not_lt.mpr h1, not_lt.mpr h2]
    · have : ¬p.2 < 0 := by linarith
      simp [this, h1]
    · simp [not_lt.mpr h1, not_lt.mpr h2]
    · dsimp only
      split_ifs with h1 h2
      · exact ⟨hW, le_refl _⟩
      · exact ⟨le_refl _, hW⟩
      · exact ⟨not_lt.mp h1, not_lt.mp h2⟩
    · dsimp only
      split_ifs with h1 h2
      · exact ⟨hH, le_refl _⟩
      · exact ⟨le_refl _, hH⟩
      · exact ⟨not_lt.mp h1, not_lt.mp h2⟩

lemma slot_set_same (g : GridMap) (cell : ℤ × ℤ) (t : MarkerType) (e : ℕ) :
    slot (set_marker g cell t e) cell t = some e := by
  cases t <;> simp [slot, set_marker]

lemma slot_set_other (g : GridMap) (cell c : ℤ × ℤ) (t t2 : MarkerType)
    (e : ℕ) (h : ¬(c = cell ∧ t2 = t)) :
    slot (set_marker g cell t e) c t2 = slot g c t2 := by
  by_cases hc : c = cell
  · subst hc
    have ht : t2 ≠ t := fun ht => h ⟨rfl, ht⟩
    cases t <;> cases t2 <;> simp_all [slot, set_marker]
  · cases t <;> cases t2 <;> simp [slot, set_marker, hc]

lemma slot_remove_other (g : GridMap) (cell c : ℤ × ℤ) (t t2 : MarkerType)
    (h : ¬(c = cell ∧ t2 = t)) :
    slot (remove_marker g cell t) c t2 = slot g c t2 := by
  by_cases hc : c = cell
  · subst hc
    have ht : t2 ≠ t := fun ht => h ⟨rfl, ht⟩
    cases t <;> cases t2 <;> simp_all [slot, remove_marker]
  · cases t <;> cases t2 <;> simp [slot, remove_marker, hc]

lemma emit_core_inv (w : World) (cell : ℤ × ℤ) (t : MarkerType)
    (inten ml : ℚ) (hinv : WorldInv w) :
    WorldInv
      { grid := set_marker w.grid cell t w.next_id,
        markers := ⟨w.next_id, inten, t, cell, 0, ml⟩ ::
          (match slot w.grid cell t with
           | some old => w.markers.filter (fun m => decide (m.id ≠ old))
           | none => w.markers),
        next_id := w.next_id + 1 } := by
  obtain ⟨h1, h2, h3⟩ := hinv
  rcases hq : slot w.grid cell t with _ | old
  all_goals simp only [hq]
  · refine ⟨?_, ?_, ?_⟩
    · intro m hm
      rcases List.mem_cons.mp hm with hm | hm
      · subst hm
        exact slot_set_same w.grid cell t w.next_id
      · by_cases hct : m.grid_cell = cell ∧ m.marker_type = t
        · exfalso
          have := h1 m hm
          rw [hct.1, hct.2, hq] at this
          exact Option.noConfusion this
        · rw [slot_set_other w.grid cell m.grid_cell t m.marker_type _ hct]
          exact h1 m hm
    · intro m hm
      rcases List.mem_cons.mp hm with hm | hm
      · subst hm
        exact Nat.lt_succ_self _
      · exact Nat.lt_succ_of_lt (h2 m hm)
    · exact List.Pairwise.cons
        (fun m hm => Nat.ne_of_gt (h2 m hm)) h3
  · refine ⟨?_, ?_, ?_⟩
    · intro m hm
      rcases List.mem_cons.mp hm with hm | hm
      · subst hm
        exact slot_set_same w.grid cell t w.next_id
      · obtain ⟨hmem, hid⟩ := List.mem_filter.mp hm
        rw [decide_eq_true_eq] at hid
        by_cases hct : m.grid_cell = cell ∧ m.marker_type = t
        · exfalso
          have := h1 m hmem
          rw [hct.1, hct.2, hq] at this
          exact hid (Option.some_inj.mp this.symm)
        · rw [slot_set_other w.grid cell m.grid_cell t m.marker_type _ hct]
          exact h1 m hmem
    · intro m hm
      rcases List.mem_cons.mp hm with hm | hm
      · subst hm
        exact Nat.lt_succ_self _
      · exact Nat.lt_succ_of_lt (h2 m (List.mem_filter.mp hm).1)
    · refine List.Pairwise.cons ?_ (List.Pairwise.sublist (List.filter_sublist _) h3)
      intro m hm
      exact Nat.ne_of_gt (h2 m (List.mem_filter.mp hm).1)

lemma emit_marker_inv (w : World) (p : ℚ × ℚ) (s : AntState) (st ml : ℚ)
    (hinv : WorldInv w) : WorldInv (emit_marker w p s st ml) := by
  have h := emit_core_inv w (world_to_grid p)
    (if s = AntState.Returning then MarkerType.Food else MarkerType.Base)
    (spawn_intensity st ml) ml hinv
  simpa only [emit_marker] using h

lemma expire_marker_inv (w : World) (id : ℕ) (hinv : WorldInv w) :
    WorldInv (expire_marker w id) := by
  obtain ⟨h1, h2, h3⟩ := hinv
  unfold expire_marker
  rcases hf : w.markers.find? (fun m => decide (m.id = id)) with _ | m0
  · simp only [hf]
    exact ⟨h1, h2, h3⟩
  · simp only [hf]
    have hm0mem : m0 ∈ w.markers := List.mem_of_find?_eq_some hf
    have hm0id : m0.id = id := by
      have := List.find?_some hf
      rwa [decide_eq_true_eq] at this
    refine ⟨?_, ?_, ?_⟩
    · intro m hm
      obtain ⟨hmem, hid⟩ := List.mem_filter.mp hm
      rw [decide_eq_true_eq] at hid
      by_cases hct : m.grid_cell = m0.grid_cell ∧ m.marker_type = m0.marker_type
      · exfalso
        have hma := h1 m hmem
        have hmb := h1 m0 hm0mem
        rw [hct.1, hct.2] at hma
        rw [hma] at hmb
        exact hid (by rw [Option.some_inj.mp hmb, hm0id])
      · rw [slot_remove_other w.grid m0.grid_cell m.grid_cell m0.marker_type
          m.marker_type hct]
        exact h1 m hmem
    · intro m hm
      exact h2 m (List.mem_filter.mp hm).1
    · exact List.Pairwise.sublist (List.filter_sublist _) h3

lemma run_ops_inv (ops : List MarkerOp) (w : World) (hinv : WorldInv w) :
    WorldInv (run_ops w ops) := by
  induction ops generalizing w with
  | nil => exact hinv
  | cons op ops ih =>
    have hstep : WorldInv (apply_op w op) := by
      cases op with
      | emit p s st ml => exact emit_marker_inv w p s st ml hinv
      | expire id => exact expire_marker_inv w id hinv
    exact ih (apply_op w op) hstep

lemma init_world_inv : WorldInv init_world := by
  refine ⟨?_, ?_, ?_⟩ <;> simp [init_world, WorldInv]

lemma at_most_one_of_inv (w : World) (hinv : WorldInv w) (cell : ℤ × ℤ)
    (t : MarkerType) : (live_markers w cell t).length ≤ 1 := by
  obtain ⟨h1, _, h3⟩ := hinv
  rcases hl : live_markers w cell t with _ | ⟨a, _ | ⟨b, rest⟩⟩
  · simp
  · simp
  · exfalso
    have hsub : List.Sublist (live_markers w cell t) w.markers := by
      unfold live_markers
      exact List.filter_sublist w.markers
    have hpair : (live_markers w cell t).Pairwise (fun m m2 => m.id ≠ m2.id) :=
      List.Pairwise.sublist hsub h3
    rw [hl] at hpair
    have hab : a.id ≠ b.id :=
      (List.pairwise_cons.mp hpair).1 b (List.mem_cons_self b rest)
    have ha : a ∈ live_markers w cell t := by
      rw [hl]
      exact List.mem_cons_self a _
    have hb : b ∈ live_markers w cell t := by
      rw [hl]
      exact List.mem_cons_of_mem a (List.mem_cons_self b rest)
    obtain ⟨hamem, hacond⟩ := List.mem_filter.mp ha
    obtain ⟨hbmem, hbcond⟩ := List.mem_filter.mp hb
    rw [decide_eq_true_eq] at hacond hbcond
    have hsa := h1 a hamem
    have hsb := h1 b hbmem
    rw [hacond.1, hacond.2] at hsa
    rw [hbcond.1, hbcond.2] at hsb
    rw [hsa] at hsb
    exact hab (Option.some_inj.mp hsb)

/-- C3: starting from the empty grid, after any sequence of marker
operations — emissions (each despawning the prior same-type occupant of its
cell before registering the new entity) and expiries — every grid cell
holds at most one live marker of each type. -/
theorem cell_holds_at_most_one_marker_per_type (ops : List MarkerOp)
    (cell : ℤ × ℤ) (t : MarkerType) :
    (live_markers (run_ops init_world ops) cell t).length ≤ 1 :=
  at_most_one_of_inv _ (run_ops_inv ops init_world init_world_inv) cell t

/-- C5 (counterexample): a syntactically well-formed configuration with
`marker_lifetime = 0` is accepted by `Config::load` — it is returned
unchanged and startup proceeds — refuting the claim that every
configuration accepted at startup has `marker_lifetime > 0`. -/
theorem config_load_accepts_zero_lifetime :
    config_load (some ⟨(10, 10), (0, 0), [], 1, 1, 0, 5, 10⟩) =
      some ⟨(10, 10), (0, 0), [], 1, 1, 0, 5, 10⟩ ∧
    ¬(0 : ℚ) <
      (⟨(10, 10), (0, 0), [], 1, 1, 0, 5, 10⟩ : Config).marker_lifetime := by
  exact ⟨rfl, by norm_num⟩

/-- C5 (amended): initialization fails only when `config.json` cannot be
read or parsed; `Config::load` performs no semantic validation, so every
parsed configuration — `marker_lifetime ≤ 0` included — is accepted and the
simulation starts with it. -/
theorem config_load_no_validation (c : Config) :
    config_load (some c) = some c := rfl

/-- C6: a marker's intensity is `INITIAL_INTENSITY − state_timer /
marker_lifetime` (`INITIAL_INTENSITY = 100`) computed once at creation and
unclamped there (it is negative once the state timer exceeds
`100 * marker_lifetime`); `update_marker_visuals` never changes it — only
the derived opacity/size scale, `intensity / INITIAL_INTENSITY` clamped to
`[0, 1]`, decays visually — and removal is decided by the lifetime timer
alone, unchanged under any replacement of the intensity. -/
theorem marker_intensity_once_expiry_by_timer :
    (∀ s L : ℚ, spawn_intensity s L = 100 - s / L) ∧
    (∀ s L : ℚ, 0 < L → 100 * L < s → spawn_intensity s L < 0) ∧
    (∀ (m : MarkerRec) (dt : ℚ),
      (update_marker_visual m dt = none ↔
        m.elapsed < m.duration ∧ m.duration ≤ m.elapsed + dt)) ∧
    (∀ (m : MarkerRec) (dt q : ℚ),
      (update_marker_visual { m with intensity := q } dt = none ↔
        update_marker_visual m dt = none)) ∧
    (∀ (m : MarkerRec) (dt : ℚ) (m2 : MarkerRec) (op : ℚ),
      update_marker_visual m dt = some (m2, op) →
        m2.intensity = m.intensity ∧
        op = min (max (m.intensity / INITIAL_INTENSITY) 0) 1 ∧
        m2.marker_type = m.marker_type ∧ m2.grid_cell = m.grid_cell) := by
  refine ⟨fun s L => rfl, fun s L hL hs => ?_, fun m dt => ?_,
    fun m dt q => ?_, fun m dt m2 op hsome => ?_⟩
  · have hdiv : (100 : ℚ) < s / L := (lt_div_iff₀ hL).mpr (by linarith)
    unfold spawn_intensity INITIAL_INTENSITY
    linarith
  · unfold update_marker_visual
    split_ifs with hc
    · simp [hc]
    · simp [hc]
  · unfold update_marker_visual
    split_ifs with hc <;> simp
  · unfold update_marker_visual at hsome
    split_ifs at hsome with hc
    rw [Option.some_inj, Prod.ext_iff] at hsome
    obtain ⟨h1, h2⟩ := hsome
    dsimp at h1 h2
    subst h1
    subst h2
    exact ⟨rfl, rfl, rfl, rfl⟩

/-- Witness for C6: at `state_timer = 300` and `marker_lifetime = 2` the
spawn intensity `100 - 150 = -50` is negative — nothing clamps it. -/
theorem marker_intensity_once_expiry_by_timer_witness :
    spawn_intensity 300 2 < 0 :=
  marker_intensity_once_expiry_by_timer.2.1 300 2 (by norm_num) (by norm_num)

/-- C8: both heading blends are renormalized: dividing the Returning-state
blend `velocity * 0.7 + to_base * 0.3` or the marker-following blend
`velocity * (1 - influence) + to_marker * influence` by its length (any
`len` with `0 < len` and `len ^ 2` equal to the blend's squared norm)
yields a vector of squared norm exactly 1; in particular unit headings stay
unit. -/
theorem blends_renormalize (h b d : ℚ × ℚ) (intensity len1 len2 : ℚ)
    (_hh : normSq h = 1) (_hb : normSq b = 1) (_hd : normSq d = 1)
    (hl1 : 0 < len1) (hl1sq : len1 ^ 2 = normSq (returning_blend h b))
    (hl2 : 0 < len2) (hl2sq : len2 ^ 2 = normSq (marker_blend h d intensity)) :
    normSq (normalizeWith (returning_blend h b) len1) = 1 ∧
    normSq (normalizeWith (marker_blend h d intensity) len2) = 1 := by
  have key : ∀ (v : ℚ × ℚ) (len : ℚ), 0 < len → len ^ 2 = normSq v →
      normSq (normalizeWith v len) = 1 := by
    intro v len hl hsq
    unfold normalizeWith normSq at *
    have hne : len ≠ 0 := ne_of_gt hl
    field_simp
    linarith
  exact ⟨key _ _ hl1 hl1sq, key _ _ hl2 hl2sq⟩

/-- Witness for C8 with both input directions `(1, 0)` and intensity 50:
both blends equal `(1, 0)`, whose length is 1. -/
theorem blends_renormalize_witness :
    normSq ((1 : ℚ), (0 : ℚ)) = 1 ∧
    normSq (normalizeWith
      (returning_blend ((1 : ℚ), (0 : ℚ)) ((1 : ℚ), (0 : ℚ))) 1) = 1 ∧
    normSq (normalizeWith
      (marker_blend ((1 : ℚ), (0 : ℚ)) ((1 : ℚ), (0 : ℚ)) 50) 1) = 1 := by
  have hu : normSq ((1 : ℚ), (0 : ℚ)) = 1 := by norm_num [normSq]
  have h := blends_renormalize ((1 : ℚ), (0 : ℚ)) ((1 : ℚ), (0 : ℚ))
    ((1 : ℚ), (0 : ℚ)) 50 1 1 hu hu hu (by norm_num)
    (by norm_num [returning_blend, vadd, vscale, normSq])
    (by norm_num)
    (by norm_num [marker_blend, marker_influence, MAX_INTENSITY,
      INFLUENCE_STRENGTH, vadd, vscale, normSq])
  exact ⟨hu, h.1, h.2⟩

/-- Witness for C9: one ant just off the left edge of a 10×8-cell map
reappears at the right edge with its y kept. -/
theorem keep_ants_in_bounds_wraps_witness :
    (keep_ants_in_bounds 10 8
        [(⟨AntState.Searching, false, ((1 : ℚ), (0 : ℚ)), 1, 2, 3⟩,
          ((-5 : ℚ), (40 : ℚ)))])[0]? =
      some (⟨AntState.Searching, false, ((1 : ℚ), (0 : ℚ)), 1, 2, 3⟩,
        wrap_position ((10 : ℕ) * GRID_CELL_SIZE) ((8 : ℕ) * GRID_CELL_SIZE)
          ((-5 : ℚ), (40 : ℚ))) :=
  (keep_ants_in_bounds_wraps 10 8
    [(⟨AntState.Searching, false, ((1 : ℚ), (0 : ℚ)), 1, 2, 3⟩,
      ((-5 : ℚ), (40 : ℚ)))] 0 (by norm_num)).1

end AntSim
